import Mathlib

set_option maxRecDepth 20000
set_option maxHeartbeats 1000000

/-!
Verification development for the self-hosted setup wizard service
(src/src/backend/src/modules/selfhosted/SetupService.js).

The service is embedded shallowly: JavaScript objects become association
lists with unique keys, the file system becomes an association list from
path to file data, and the mutable service state (in-memory completion
flag, in-memory setup token, global configuration object) becomes an
explicit World record threaded through every operation.  External
collaborators that are not part of this repository (the bcrypt library,
the user directory and the database service reached by
updateAdminPassword) are modelled by boolean outcome flags in ExtEnv and
an abstract injective hash; the file system primitives are modelled as
total.  Each definition carries the line numbers of the source it embeds.
-/

/-- JavaScript values appearing in the configuration objects this service
builds: every value it ever stores is a string or a boolean. -/
inductive JVal
  | str (s : String)
  | bool (b : Bool)
  deriving DecidableEq

/-- A JavaScript object with string keys; operations below keep keys unique. -/
abbrev Obj := List (String × JVal)

/-- Property assignment obj[k] = v: any previous binding of k is dropped and
the key is (re)added. -/
def objSet (o : Obj) (k : String) (v : JVal) : Obj :=
  o.filter (fun p => p.1 != k) ++ [(k, v)]

/-- Property read obj[k]. -/
def objGet (o : Obj) (k : String) : Option JVal :=
  (o.find? (fun p => p.1 == k)).map (fun p => p.2)

/-- Property read of a string-valued property. -/
def objGetStr (o : Obj) (k : String) : Option String :=
  match objGet o k with
  | some (JVal.str s) => some s
  | _ => none

/-- The JavaScript `in` operator: does the object have the key. -/
def objHas (o : Obj) (k : String) : Bool :=
  o.any (fun p => p.1 == k)

/-- Object spread \x7b ...a, ...b \x7d: keys of b overwrite keys of a. -/
def objMerge (a b : Obj) : Obj :=
  b.foldl (fun acc p => objSet acc p.1 p.2) a

/-- Contents of one persisted file: plain text or a serialized JSON object
(byte-level serialization is not modelled, only the object it encodes). -/
inductive FileData
  | text (s : String)
  | jsonObj (o : Obj)
  deriving DecidableEq

/-- The config directory of the deployment, path to file data. -/
abbrev FileSys := List (String × FileData)

/-- fs.writeFile: replaces any existing file at the path. -/
def fileWrite (fs : FileSys) (p : String) (d : FileData) : FileSys :=
  fs.filter (fun e => e.1 != p) ++ [(p, d)]

/-- fs.unlink guarded by fs.existsSync: removes the file when present,
succeeds either way. -/
def fileRemove (fs : FileSys) (p : String) : FileSys :=
  fs.filter (fun e => e.1 != p)

/-- fs.readFile / fs.access: the file at the path, if any. -/
def fileGet : FileSys → String → Option FileData
  | [], _ => none
  | e :: rest, p => if e.1 == p then some e.2 else fileGet rest p

/-- Outcomes of the external collaborators reached by updateAdminPassword
(lines 485-685): the user directory, the duck-typed database service and the
best-effort password log write.  These are not code of this repository; each
call site gets a boolean success flag. -/
structure ExtEnv where
  adminUser : Bool
  dbFound : Bool
  dbUpdateOk : Bool
  verifyUser : Bool
  logWriteOk : Bool
  deriving DecidableEq

/-- The mutable state the service touches: the config directory files, the
global configuration object (require("../../config")), the in-memory
this.setupCompleted flag, the in-memory setupToken closure variable of
__on_install.routes, the admin user's stored password hash (the external
user directory), the external outcome flags, and the current clock value
used wherever the source calls new Date().toISOString(). -/
structure World where
  files : FileSys
  globalConfig : Obj
  setupCompleted : Bool
  setupToken : Option String
  adminHash : Option String
  ext : ExtEnv
  now : String
  deriving DecidableEq

/-- The parsed JSON body the wizard form posts (lines 835-840 build it);
missing string fields are modelled as "" which is exactly what JavaScript
truthiness tests distinguish. -/
structure Submission where
  subdomainBehavior : String
  domainName : String
  useNip : Bool
  adminPassword : String
  token : String
  deriving DecidableEq

/-- An HTTP request as the service consults it: path, method, remote ip,
req.query.token ("" when absent) and the parsed body. -/
structure Req where
  path : String
  method : String
  ip : String
  queryToken : String
  body : Submission
  deriving DecidableEq

/-- One of the whitespace characters String.prototype.trim strips. -/
def jsWhitespace (c : Char) : Bool :=
  c == ' ' || c == '\t' || c == '\n' || c == '\r'

/-- Executable model of String.prototype.trim: strip leading and trailing
whitespace. -/
def jsTrim (s : String) : String :=
  String.mk (((s.data.dropWhile jsWhitespace).reverse.dropWhile jsWhitespace).reverse)

/-- Model of the external bcrypt collaborator: an injective tag.  Only the
round-trip law compare(p, hash(p)) = true is relied on. -/
def bcryptHash (password : String) : String :=
  "bcrypt$" ++ password

/-- bcrypt.compare(password, hash). -/
def bcryptCompare (password hash : String) : Bool :=
  hash == bcryptHash password

/-- The line written to config/admin-password-log.txt (lines 652-656). -/
def adminPasswordLogLine (password now : String) : String :=
  "Admin password was set to: " ++ password ++ " at " ++ now

/-- updateAdminPassword (lines 521-685).  Rejects an empty or blank
password; fails when the admin user, the database service, the database
update or the re-read of the user fails; on a successful update the stored
hash is the bcrypt hash, verification compares the password against it, and
on a verified update the plaintext password plus timestamp is written to
config/admin-password-log.txt, with a failure of that write only warned
about (lines 659-661), never surfaced. -/
def updateAdminPassword (password : String) (w : World) :
    Except String Unit × World :=
  if jsTrim password == "" then (Except.error "Empty password provided", w)
  else if !w.ext.adminUser then (Except.error "Admin user not found", w)
  else if !w.ext.dbFound then (Except.error "No database service found", w)
  else if !w.ext.dbUpdateOk then (Except.error "Database update failed", w)
  else
    let w1 : World := { w with adminHash := some (bcryptHash password) }
    if !w1.ext.verifyUser then
      (Except.error "Failed to verify password update", w1)
    else
      match w1.adminHash with
      | some h =>
        if bcryptCompare password h then
          if w1.ext.logWriteOk then
            (Except.ok (), { w1 with
              files := fileWrite w1.files "config/admin-password-log.txt"
                (FileData.text (adminPasswordLogLine password w1.now)) })
          else (Except.ok (), w1)
        else (Except.error "Password verification failed", w1)
      | none => (Except.error "Password verification failed", w1)

/-- A configuration step's process function: submitted fields and request in,
a partial configuration delta out, threading the world because a step may
reach external collaborators (the admin password step does). -/
def ProcessFn : Type :=
  Submission → Req → World → Except String Obj × World

/-- One registered configuration step as stored in this.configSteps
(lines 1761-1769).  regIdx is bookkeeping added by the embedding: the
position of the registration in the registration sequence, used only to
state stability of the sort; it does not influence any computation. -/
structure Step where
  id : String
  title : String
  description : String
  required : Bool
  order : Int
  template : String
  process : ProcessFn
  regIdx : Nat

/-- The argument object of registerConfigStep; "" models a missing (falsy)
string field, none a missing order or process. -/
structure StepInput where
  id : String
  title : String
  description : Option String
  required : Option Bool
  order : Option Int
  template : String
  process : Option ProcessFn

/-- The JavaScript expression step.order || 999 (line 1766): a missing,
null or zero order is falsy and is replaced by 999. -/
def effOrder (o : Option Int) : Int :=
  match o with
  | none => 999
  | some n => if n == 0 then 999 else n

/-- Insertion of a step into a list sorted by order, placing it before the
first strictly greater entry and after every equal one. -/
def orderedInsertStep (s : Step) : List Step → List Step
  | [] => [s]
  | t :: ts =>
    if s.order ≤ t.order then s :: t :: ts else t :: orderedInsertStep s ts

/-- this.configSteps.sort((a, b) => a.order - b.order) (line 1772).
Array.prototype.sort is stable per the ECMAScript specification, and a
stable sort by a fixed key is unique as a function, so stable insertion
sort is the same function. -/
def sortSteps : List Step → List Step
  | [] => []
  | s :: rest => orderedInsertStep s (sortSteps rest)

/-- registerConfigStep (lines 1753-1778): throws when id, title, template
or process is falsy; otherwise pushes the normalized step and re-sorts the
registry by order. -/
def registerConfigStep (registry : List Step) (regIdx : Nat) (s : StepInput) :
    Except String (List Step) :=
  match s.process with
  | none =>
    Except.error "Configuration step must have id, title, template and process function"
  | some p =>
    if s.id == "" || s.title == "" || s.template == "" then
      Except.error "Configuration step must have id, title, template and process function"
    else
      Except.ok (sortSteps (registry ++ [{
        id := s.id,
        title := s.title,
        description := s.description.getD "",
        required := s.required.getD true,
        order := effOrder s.order,
        template := s.template,
        process := p,
        regIdx := regIdx }]))

/-- A sequence of registerConfigStep calls, numbering registrations from
start. -/
def registerSeq (start : Nat) (registry : List Step) :
    List StepInput → Except String (List Step)
  | [] => Except.ok registry
  | s :: rest =>
    match registerConfigStep registry start s with
    | Except.error e => Except.error e
    | Except.ok reg1 => registerSeq (start + 1) reg1 rest

/-- The subdomain step's process (lines 1695-1699). -/
def subdomainProcess : ProcessFn := fun data _ w =>
  (Except.ok [("experimental_no_subdomain",
      JVal.bool (data.subdomainBehavior == "disabled"))], w)

/-- The domain step's process (lines 1710-1716): either the literal domain
name or a nip.io domain derived from the request ip. -/
def domainProcess : ProcessFn := fun data req w =>
  (Except.ok [("domain",
      JVal.str (if data.useNip then (req.ip.replace "." "-") ++ ".nip.io"
                else data.domainName))], w)

/-- The admin password step's process (lines 1727-1745): delegates to
updateAdminPassword when a non-blank password was submitted, returns an
empty delta, and swallows any failure of the update (the catch at
lines 1734-1742 only logs). -/
def adminPasswordProcess : ProcessFn := fun data _ w =>
  if data.adminPassword != "" && jsTrim data.adminPassword != "" then
    (Except.ok [], (updateAdminPassword data.adminPassword w).2)
  else (Except.ok [], w)

/-- The subdomain step registration argument (lines 1688-1700); the html
template is abbreviated to an opaque non-empty marker, faithful to its
truthiness. -/
def subdomainInput : StepInput :=
  { id := "subdomain", title := "Subdomain Configuration",
    description := some "Configure how subdomains work in your Puter instance",
    required := some true, order := some 10,
    template := "subdomain-step-markup", process := some subdomainProcess }

/-- The domain step registration argument (lines 1703-1717). -/
def domainInput : StepInput :=
  { id := "domain", title := "Domain Configuration",
    description := some "Set up the domain name for your Puter instance",
    required := some true, order := some 20,
    template := "domain-step-markup", process := some domainProcess }

/-- The admin password step registration argument (lines 1720-1746). -/
def adminPasswordInput : StepInput :=
  { id := "adminPassword", title := "Admin Password",
    description := some "Set the password for the admin user",
    required := some true, order := some 30,
    template := "password-step-markup", process := some adminPasswordProcess }

/-- registerDefaultConfigSteps (lines 1686-1747). -/
def defaultStepInputs : List StepInput :=
  [subdomainInput, domainInput, adminPasswordInput]

/-- The registry after _construct plus registerDefaultConfigSteps. -/
def defaultRegistry : List Step :=
  match registerSeq 0 [] defaultStepInputs with
  | Except.ok reg => reg
  | Except.error _ => []

/-- The outcome of the processConfigSteps loop: the result (merged config
and captured admin password, or the first step's error), the world after
the executed steps, and the trace of step ids in execution order (the log
line emitted at the top of each iteration, line 1792). -/
structure PipelineOut where
  result : Except String (Obj × Option String)
  world : World
  trace : List String

/-- The loop of processConfigSteps (lines 1790-1805): each step runs in
registry order; a throwing step aborts the loop with its error; the step's
delta is spread over the accumulated config; the admin password is captured
in a separate variable when the adminPassword step runs on a truthy
submitted password. -/
def processConfigStepsAux (data : Submission) (req : Req) :
    List Step → Obj → Option String → World → List String → PipelineOut
  | [], config, adminPassword, w, tr =>
    { result := Except.ok (config, adminPassword), world := w, trace := tr }
  | step :: rest, config, adminPassword, w, tr =>
    let tr1 := tr ++ [step.id]
    match step.process data req w with
    | (Except.error e, w1) =>
      { result := Except.error e, world := w1, trace := tr1 }
    | (Except.ok stepConfig, w1) =>
      let adminPassword1 :=
        if step.id == "adminPassword" && data.adminPassword != "" then
          some data.adminPassword
        else adminPassword
      processConfigStepsAux data req rest (objMerge config stepConfig)
        adminPassword1 w1 tr1

/-- processConfigSteps (lines 1783-1814): runs the loop from an empty config
and, when a password was captured, stores it on the returned config under
the key __adminPassword (lines 1809-1811). -/
def processConfigSteps (steps : List Step) (data : Submission) (req : Req)
    (w : World) : Except String Obj × World :=
  match processConfigStepsAux data req steps [] none w [] with
  | { result := Except.error e, world := w1, trace := _ } =>
    (Except.error e, w1)
  | { result := Except.ok (config, some pw), world := w1, trace := _ } =>
    (Except.ok (objSet config "__adminPassword" (JVal.str pw)), w1)
  | { result := Except.ok (config, none), world := w1, trace := _ } =>
    (Except.ok config, w1)

/-- The ids of the steps the pipeline executed, in execution order. -/
def pipelineTrace (steps : List Step) (data : Submission) (req : Req)
    (w : World) : List String :=
  (processConfigStepsAux data req steps [] none w []).trace

/-- updateConfig (lines 429-482): Object.assign of the new config onto the
global configuration object, then the whole new config is written to
config/wizard-config.json. -/
def updateConfig (newConfig : Obj) (w : World) : Except String Unit × World :=
  (Except.ok (), { w with
    globalConfig := objMerge w.globalConfig newConfig,
    files := fileWrite w.files "config/wizard-config.json"
      (FileData.jsonObj newConfig) })

/-- markSetupCompleted (lines 80-132): writes the timestamped completion
marker, persists a truthy sidecar admin password to config/admin-password,
and sets the in-memory flag. -/
def markSetupCompleted (adminPassword : Option String) (w : World) :
    Except String Unit × World :=
  let w1 := { w with
    files := fileWrite w.files "config/setup-completed" (FileData.text w.now) }
  let w2 :=
    match adminPassword with
    | some pw =>
      if pw != "" then
        { w1 with
          files := fileWrite w1.files "config/admin-password" (FileData.text pw) }
      else w1
    | none => w1
  (Except.ok (), { w2 with setupCompleted := true })

/-- isSetupCompleted (lines 65-74): the marker file's presence; absence is
false, never an error. -/
def isSetupCompleted (w : World) : Bool :=
  (fileGet w.files "config/setup-completed").isSome

/-- The fixed restart policy key list (lines 1823-1829). -/
def restartRequiredOptions : List String :=
  ["domain", "experimental_no_subdomain", "http_port", "api_base_url", "origin"]

/-- requiresRestart (lines 1821-1843): true iff some restart key is a key
of the new configuration object. -/
def requiresRestart (newConfig : Obj) : Bool :=
  restartRequiredOptions.any (fun o => objHas newConfig o)

/-- The responses the modelled endpoints produce. -/
inductive Resp
  | ok (needsRestart : Bool)
  | fail (message : String) (error : String)
  | redirect (location : String)
  | resetOk
  | page (name : String)
  deriving DecidableEq

/-- The configure endpoint handler (lines 338-405): pipeline, then
updateConfig, then markSetupCompleted with the captured sidecar password,
then removal of the persisted token file when the in-memory token is truthy
(lines 372-380; the in-memory setupToken variable itself is NOT cleared),
then the restart decision on the full config object (line 383). -/
def configureHandler (steps : List Step) (r : Req) (w : World) :
    Resp × World :=
  match processConfigSteps steps r.body r w with
  | (Except.error e, w1) => (Resp.fail "Failed to complete setup" e, w1)
  | (Except.ok config, w1) =>
    match updateConfig config w1 with
    | (Except.error e, w2) => (Resp.fail "Failed to update configuration" e, w2)
    | (Except.ok _, w2) =>
      match markSetupCompleted (objGetStr config "__adminPassword") w2 with
      | (Except.error e, w3) =>
        (Resp.fail "Failed to mark setup as completed" e, w3)
      | (Except.ok _, w3) =>
        let w4 :=
          match w3.setupToken with
          | some _ =>
            { w3 with files := fileRemove w3.files "config/setup-token" }
          | none => w3
        (Resp.ok (requiresRestart config), w4)

/-- The reset endpoint handler body (lines 255-287): removes the completion
marker if present, clears the in-memory flag, answers success. -/
def resetHandler (w : World) : Resp × World :=
  (Resp.resetOk, { w with
    files := fileRemove w.files "config/setup-completed",
    setupCompleted := false })

/-- Classification a request receives from the token middleware. -/
inductive GateResult
  | exempt
  | authorized
  | denied
  deriving DecidableEq

/-- verifySetupToken (lines 205-239): the exempt routes, then the supplied
token (query preferred over body) must equal the in-memory setupToken
exactly; a missing or mismatched token is denied (redirect to
/__setup/token, line 235). -/
def verifySetupToken (setupCompleted : Bool) (setupToken : Option String)
    (r : Req) : GateResult :=
  if r.path == "/__setup/token" then GateResult.exempt
  else if r.path == "/__setup/reset-instructions" then GateResult.exempt
  else if r.path == "/__setup" && r.method == "GET" then GateResult.exempt
  else if r.path == "/" && r.method == "GET" && !setupCompleted then
    GateResult.exempt
  else
    let token := if r.queryToken != "" then r.queryToken else r.body.token
    if token == "" then GateResult.denied
    else
      match setupToken with
      | some t => if token == t then GateResult.authorized else GateResult.denied
      | none => GateResult.denied

/-- Dispatch of the two write endpoints as __on_install.routes attaches
them: /__setup/reset is attached WITH the verifySetupToken middleware
(line 254), /__setup/configure is attached WITHOUT any middleware
(lines 338-341). -/
def handleSetupPost (steps : List Step) (w : World) (r : Req) : Resp × World :=
  if r.path == "/__setup/reset" && r.method == "POST" then
    match verifySetupToken w.setupCompleted w.setupToken r with
    | GateResult.denied => (Resp.redirect "/__setup/token", w)
    | _ => resetHandler w
  else if r.path == "/__setup/configure" && r.method == "POST" then
    configureHandler steps r w
  else (Resp.page "other", w)

/-- The orchestration state the configure endpoint commits: in-memory flag,
in-memory token, completion marker file, token file, committed wizard
config file, and the global configuration object. -/
def orchOf (w : World) :
    Bool × Option String × Option FileData × Option FileData ×
      Option FileData × Obj :=
  (w.setupCompleted, w.setupToken,
   fileGet w.files "config/setup-completed",
   fileGet w.files "config/setup-token",
   fileGet w.files "config/wizard-config.json",
   w.globalConfig)

/-- A process function that does not itself touch the orchestration state
(every default step satisfies this: they only reach the user directory and
the password log). -/
def preservesOrch (p : ProcessFn) : Prop :=
  ∀ data req w, orchOf (p data req w).2 = orchOf w

/-- Registration order: strictly smaller order, or equal order and earlier
registration. -/
def stepPrec (a b : Step) : Prop :=
  a.order < b.order ∨ (a.order = b.order ∧ a.regIdx < b.regIdx)

instance instDecStepPrec (a b : Step) : Decidable (stepPrec a b) := by
  unfold stepPrec
  infer_instance

/-- All external calls succeed. -/
def testExt : ExtEnv :=
  { adminUser := true, dbFound := true, dbUpdateOk := true,
    verifyUser := true, logWriteOk := true }

/-- A fresh deployment: token generated and persisted, setup not
completed. -/
def testWorld : World :=
  { files := [("config/setup-token", FileData.text "s3cret")],
    globalConfig := [],
    setupCompleted := false,
    setupToken := some "s3cret",
    adminHash := some "oldhash",
    ext := testExt,
    now := "2026-01-01T00:00:00Z" }

/-- A submission carrying the wrong token. -/
def mismatchedBody : Submission :=
  { subdomainBehavior := "disabled", domainName := "example.com",
    useNip := false, adminPassword := "secretpw", token := "wrong-token" }

/-- POST /__setup/configure carrying the wrong token. -/
def mismatchedReq : Req :=
  { path := "/__setup/configure", method := "POST", ip := "203.0.113.7",
    queryToken := "", body := mismatchedBody }

/-- A submission carrying the correct token. -/
def goodBody : Submission :=
  { subdomainBehavior := "disabled", domainName := "example.com",
    useNip := false, adminPassword := "secretpw", token := "s3cret" }

/-- POST /__setup/configure carrying the correct token. -/
def goodReq : Req :=
  { path := "/__setup/configure", method := "POST", ip := "203.0.113.7",
    queryToken := "s3cret", body := goodBody }

/-- POST /__setup/reset replaying the pre-setup token after setup
completed. -/
def oldTokenResetReq : Req :=
  { path := "/__setup/reset", method := "POST", ip := "203.0.113.7",
    queryToken := "s3cret", body := goodBody }


/-- The subdomain step as stored in the registry. -/
def subdomainStep : Step :=
  { id := "subdomain", title := "Subdomain Configuration",
    description := "Configure how subdomains work in your Puter instance",
    required := true, order := 10, template := "subdomain-step-markup",
    process := subdomainProcess, regIdx := 0 }

/-- The domain step as stored in the registry. -/
def domainStep : Step :=
  { id := "domain", title := "Domain Configuration",
    description := "Set up the domain name for your Puter instance",
    required := true, order := 20, template := "domain-step-markup",
    process := domainProcess, regIdx := 1 }

/-- The admin password step as stored in the registry. -/
def adminPasswordStep : Step :=
  { id := "adminPassword", title := "Admin Password",
    description := "Set the password for the admin user",
    required := true, order := 30, template := "password-step-markup",
    process := adminPasswordProcess, regIdx := 2 }

/-- A registered extension step whose process always throws. -/
def boomStep : Step :=
  { id := "boom", title := "Boom", description := "", required := true,
    order := 999, template := "boom-markup",
    process := fun _ _ w => (Except.error "boom", w), regIdx := 0 }

/-- A process returning the delta key a. -/
def pA : ProcessFn := fun _ _ w => (Except.ok [("a", JVal.str "1")], w)

/-- A process returning the delta key b. -/
def pB : ProcessFn := fun _ _ w => (Except.ok [("b", JVal.str "2")], w)

/-- First registration of id x. -/
def xInput1 : StepInput :=
  { id := "x", title := "X first", description := none, required := none,
    order := some 5, template := "x-markup-1", process := some pA }

/-- Second registration of the same id x with a different process. -/
def xInput2 : StepInput :=
  { id := "x", title := "X second", description := none, required := none,
    order := some 5, template := "x-markup-2", process := some pB }

/-- The registry after registering id x twice. -/
def regXX : List Step :=
  match registerSeq 0 [] [xInput1, xInput2] with
  | Except.ok l => l
  | Except.error _ => []

/-- The registry after registering id x once. -/
def regX1 : List Step :=
  match registerConfigStep [] 0 xInput1 with
  | Except.ok l => l
  | Except.error _ => []

/-- A named registration argument with a chosen order. -/
def namedInput (nm : String) (o : Int) : StepInput :=
  { id := nm, title := nm, description := none, required := none,
    order := some o, template := "markup", process := some pA }

/-- Three registrations arriving out of order. -/
def c6inputs : List StepInput :=
  [namedInput "late" 30, namedInput "early" 10, namedInput "mid" 20]

/-- Their registry. -/
def c6reg : List Step :=
  match registerSeq 0 [] c6inputs with
  | Except.ok l => l
  | Except.error _ => []

/-- A registration argument carrying the explicit order 0. -/
def zeroOrderInput : StepInput :=
  { id := "zero", title := "Zero order", description := none, required := none,
    order := some 0, template := "zero-markup", process := some pA }

/-- The delta the subdomain and domain steps contribute, merged in step
order. -/
def defaultDelta (data : Submission) (req : Req) : Obj :=
  objMerge
    (objMerge []
      [("experimental_no_subdomain", JVal.bool (data.subdomainBehavior == "disabled"))])
    [("domain", JVal.str (if data.useNip then (req.ip.replace "." "-") ++ ".nip.io"
        else data.domainName))]

/-- The world after the configure endpoint commits a successful pipeline
result: updateConfig, then markSetupCompleted with the sidecar password,
then removal of the token file when the in-memory token is truthy. -/
def commitWorld (cfg : Obj) (w1 : World) : World :=
  let w2 := (updateConfig cfg w1).2
  let w3 := (markSetupCompleted (objGetStr cfg "__adminPassword") w2).2
  match w3.setupToken with
  | some _ => { w3 with files := fileRemove w3.files "config/setup-token" }
  | none => w3

/-- Writing a file makes it readable back. -/
theorem fileGet_fileWrite_self (fs : FileSys) (p : String) (d : FileData) :
    fileGet (fileWrite fs p d) p = some d := by
  induction fs with
  | nil => simp [fileGet, fileWrite]
  | cons e rest ih =>
    by_cases h : e.1 = p
    · simpa [fileWrite, List.filter_cons, h] using ih
    · simpa [fileWrite, fileGet, List.filter_cons, h] using ih

/-- Writing one path leaves every other path unchanged. -/
theorem fileGet_fileWrite_ne (fs : FileSys) (p q : String) (d : FileData)
    (h : q ≠ p) : fileGet (fileWrite fs p d) q = fileGet fs q := by
  induction fs with
  | nil => simp [fileGet, fileWrite, Ne.symm h]
  | cons e rest ih =>
    by_cases hp : e.1 = p
    · simp [fileWrite, fileGet, List.filter_cons, hp, Ne.symm h] at ih ⊢
      exact ih
    · by_cases hq : e.1 = q
      · simp [fileWrite, fileGet, List.filter_cons, hp, hq, h, Ne.symm h]
      · simp [fileWrite, fileGet, List.filter_cons, hp, hq, Ne.symm h] at ih ⊢
        exact ih

/-- Removing a path removes it. -/
theorem fileGet_fileRemove_self (fs : FileSys) (p : String) :
    fileGet (fileRemove fs p) p = none := by
  induction fs with
  | nil => simp [fileGet, fileRemove]
  | cons e rest ih =>
    by_cases h : e.1 = p
    · simpa [fileRemove, List.filter_cons, h] using ih
    · simpa [fileRemove, fileGet, List.filter_cons, h] using ih

/-- Removing one path leaves every other path unchanged. -/
theorem fileGet_fileRemove_ne (fs : FileSys) (p q : String) (h : q ≠ p) :
    fileGet (fileRemove fs p) q = fileGet fs q := by
  induction fs with
  | nil => simp [fileGet, fileRemove]
  | cons e rest ih =>
    by_cases hp : e.1 = p
    · simp [fileRemove, fileGet, List.filter_cons, hp, Ne.symm h] at ih ⊢
      exact ih
    · by_cases hq : e.1 = q
      · simp [fileRemove, fileGet, List.filter_cons, hp, hq, h, Ne.symm h]
      · simp [fileRemove, fileGet, List.filter_cons, hp, hq, Ne.symm h] at ih ⊢
        exact ih

/-- Membership after ordered insertion. -/
theorem mem_orderedInsertStep {u s : Step} {l : List Step} :
    u ∈ orderedInsertStep s l ↔ u = s ∨ u ∈ l := by
  induction l with
  | nil => simp [orderedInsertStep]
  | cons t ts ih =>
    simp only [orderedInsertStep]
    split
    · simp [List.mem_cons]
    · simp [List.mem_cons, ih]
      tauto

/-- Ordered insertion is a permutation of consing. -/
theorem orderedInsertStep_perm (s : Step) (l : List Step) :
    (orderedInsertStep s l).Perm (s :: l) := by
  induction l with
  | nil => exact List.Perm.refl _
  | cons t ts ih =>
    simp only [orderedInsertStep]
    split
    · exact List.Perm.refl _
    · exact (List.Perm.cons t ih).trans (List.Perm.swap s t ts)

/-- The sorted registry is a permutation of the raw one. -/
theorem sortSteps_perm (l : List Step) : (sortSteps l).Perm l := by
  induction l with
  | nil => exact List.Perm.refl _
  | cons s rest ih =>
    exact (orderedInsertStep_perm s (sortSteps rest)).trans (List.Perm.cons s ih)

/-- Membership in the sorted registry. -/
theorem sortSteps_mem {u : Step} {l : List Step} :
    u ∈ sortSteps l ↔ u ∈ l := (sortSteps_perm l).mem_iff

/-- Inserting a step that ties only with later registrations preserves the
registration order invariant. -/
theorem orderedInsertStep_pairwise {s : Step} {l : List Step}
    (hl : List.Pairwise stepPrec l)
    (hs : ∀ t ∈ l, t.order = s.order → s.regIdx < t.regIdx) :
    List.Pairwise stepPrec (orderedInsertStep s l) := by
  induction l with
  | nil => simp [orderedInsertStep, stepPrec]
  | cons t ts ih =>
    rcases List.pairwise_cons.mp hl with ⟨ht, hts⟩
    simp only [orderedInsertStep]
    split
    · rename_i hle
      refine List.pairwise_cons.mpr ⟨?_, hl⟩
      intro u hu
      rcases List.mem_cons.mp hu with rfl | hu2
      · rcases lt_or_eq_of_le hle with h1 | h1
        · exact Or.inl h1
        · exact Or.inr ⟨h1, hs u (List.mem_cons_self u ts) h1.symm⟩
      · have htu := ht u hu2
        rcases lt_or_eq_of_le hle with h1 | h1
        · rcases htu with h2 | h2
          · exact Or.inl (lt_trans h1 h2)
          · exact Or.inl (h2.1 ▸ h1)
        · rcases htu with h2 | h2
          · exact Or.inl (h1 ▸ h2)
          · exact Or.inr ⟨h1.trans h2.1, hs u (List.mem_cons_of_mem t hu2) (h2.1.symm.trans h1.symm)⟩
    · rename_i hgt
      have hlt : t.order < s.order := lt_of_not_le hgt
      refine List.pairwise_cons.mpr ⟨?_, ih hts ?_⟩
      · intro u hu
        rcases mem_orderedInsertStep.mp hu with rfl | hu2
        · exact Or.inl hlt
        · exact ht u hu2
      · intro u hu hord
        exact hs u (List.mem_cons_of_mem t hu) hord

/-- The sorted registry satisfies the registration order invariant whenever
equal orders appear in registration order in the input. -/
theorem sortSteps_pairwise {l : List Step}
    (h : List.Pairwise (fun a b => a.order = b.order → a.regIdx < b.regIdx) l) :
    List.Pairwise stepPrec (sortSteps l) := by
  induction l with
  | nil => simp [sortSteps]
  | cons s rest ih =>
    rcases List.pairwise_cons.mp h with ⟨hs, hrest⟩
    exact orderedInsertStep_pairwise (ih hrest)
      (fun t ht hord => hs t (sortSteps_mem.mp ht) hord.symm)

/-- What a successful registration returns: the sorted extension of the
registry by the normalized step. -/
theorem registerConfigStep_ok {registry : List Step} {idx : Nat}
    {s : StepInput} {out : List Step}
    (h : registerConfigStep registry idx s = Except.ok out) :
    ∃ p, s.process = some p ∧
      out = sortSteps (registry ++ [{
        id := s.id, title := s.title,
        description := s.description.getD "",
        required := s.required.getD true,
        order := effOrder s.order, template := s.template,
        process := p, regIdx := idx }]) := by
  unfold registerConfigStep at h
  split at h
  · cases h
  · rename_i p2 heq
    split at h
    · cases h
    · injection h with h2
      exact ⟨p2, heq, h2.symm⟩

/-- One registration keeps the registry sorted by order with ties in
registration order, provided every present registration is older. -/
theorem registerConfigStep_invariant {registry : List Step} {idx : Nat}
    {s : StepInput} {out : List Step}
    (hreg : List.Pairwise stepPrec registry)
    (hidx : ∀ t ∈ registry, t.regIdx < idx)
    (h : registerConfigStep registry idx s = Except.ok out) :
    List.Pairwise stepPrec out ∧ ∀ t ∈ out, t.regIdx < idx + 1 := by
  obtain ⟨p, hp, rfl⟩ := registerConfigStep_ok h
  constructor
  · apply sortSteps_pairwise
    apply List.pairwise_append.mpr
    refine ⟨hreg.imp ?_, List.pairwise_singleton _ _, ?_⟩
    · intro a b hab hord
      rcases hab with h1 | h1
      · exact absurd hord (ne_of_lt h1)
      · exact h1.2
    · intro a ha b hb _
      simp only [List.mem_singleton] at hb
      subst hb
      exact hidx a ha
  · intro t ht
    rcases List.mem_append.mp (sortSteps_mem.mp ht) with h1 | h1
    · exact Nat.lt_succ_of_lt (hidx t h1)
    · simp only [List.mem_singleton] at h1
      subst h1
      exact Nat.lt_succ_self idx

/-- Every successful registration sequence leaves the registry sorted by
order with ties in registration order. -/
theorem registerSeq_pairwise (inputs : List StepInput) :
    ∀ (start : Nat) (registry reg : List Step),
      List.Pairwise stepPrec registry → (∀ t ∈ registry, t.regIdx < start) →
      registerSeq start registry inputs = Except.ok reg →
      List.Pairwise stepPrec reg := by
  induction inputs with
  | nil =>
    intro start registry reg h1 _ h
    unfold registerSeq at h
    injection h with h
    exact h ▸ h1
  | cons s rest ih =>
    intro start registry reg h1 h2 h
    unfold registerSeq at h
    split at h
    · cases h
    · rename_i reg1 hr
      obtain ⟨hp1, hp2⟩ := registerConfigStep_invariant h1 h2 hr
      exact ih (start + 1) reg1 reg hp1 hp2 h

/-- On success the trace is exactly the registry ids in registry order. -/
theorem aux_trace_ok (data : Submission) (req : Req) :
    ∀ (steps : List Step) (cfg : Obj) (apw : Option String) (w : World)
      (tr : List String) (res : Obj × Option String) (w1 : World)
      (t1 : List String),
      processConfigStepsAux data req steps cfg apw w tr =
        { result := Except.ok res, world := w1, trace := t1 } →
      t1 = tr ++ steps.map Step.id := by
  intro steps
  induction steps with
  | nil =>
    intro cfg apw w tr res w1 t1 h
    unfold processConfigStepsAux at h
    injection h with h1 h2 h3
    simp [← h3]
  | cons step rest ih =>
    intro cfg apw w tr res w1 t1 h
    unfold processConfigStepsAux at h
    split at h
    · injection h with h1
      cases h1
    · rename_i stepConfig w2 hstep
      have := ih _ _ _ _ _ _ _ h
      simpa [List.append_assoc] using this

/-- When every step preserves the orchestration state, so does the whole
loop, whether it succeeds or aborts. -/
theorem aux_orch (data : Submission) (req : Req) :
    ∀ (steps : List Step) (cfg : Obj) (apw : Option String) (w : World)
      (tr : List String),
      (∀ s ∈ steps, preservesOrch s.process) →
      orchOf (processConfigStepsAux data req steps cfg apw w tr).world =
        orchOf w := by
  intro steps
  induction steps with
  | nil => intro cfg apw w tr _; rfl
  | cons step rest ih =>
    intro cfg apw w tr hpres
    have hstep : orchOf (step.process data req w).2 = orchOf w :=
      hpres step (List.mem_cons_self step rest) data req w
    unfold processConfigStepsAux
    cases hp : step.process data req w with
    | mk r w1 =>
      have hw1 : orchOf w1 = orchOf w := by rw [hp] at hstep; exact hstep
      cases r with
      | error e => simpa using hw1
      | ok stepConfig =>
        simp only []
        rw [ih _ _ w1 _ (fun s hs => hpres s (List.mem_cons_of_mem step hs))]
        exact hw1

/-- An aborted pipeline leaves the orchestration state untouched. -/
theorem processConfigSteps_error_orch {steps : List Step} {data : Submission}
    {req : Req} {w : World} {e : String} {w1 : World}
    (hpres : ∀ s ∈ steps, preservesOrch s.process)
    (h : processConfigSteps steps data req w = (Except.error e, w1)) :
    orchOf w1 = orchOf w := by
  unfold processConfigSteps at h
  have horch := aux_orch data req steps [] none w [] hpres
  split at h
  · rename_i w2 heq
    injection h with _ h2
    rw [heq] at horch
    exact h2 ▸ horch
  · cases h
  · cases h

/-- The default registry, materialized. -/
theorem defaultRegistry_eq :
    defaultRegistry = [subdomainStep, domainStep, adminPasswordStep] := rfl

/-- updateAdminPassword never touches the orchestration state: it writes
only the admin hash and the password log file. -/
theorem updateAdminPassword_orch (pw : String) (w : World) :
    orchOf (updateAdminPassword pw w).2 = orchOf w := by
  simp only [updateAdminPassword]
  repeat' split
  all_goals simp [orchOf, fileGet_fileWrite_ne]

/-- The subdomain step preserves the orchestration state. -/
theorem subdomainProcess_orch : preservesOrch subdomainProcess :=
  fun _ _ _ => rfl

/-- The domain step preserves the orchestration state. -/
theorem domainProcess_orch : preservesOrch domainProcess :=
  fun _ _ _ => rfl

/-- The admin password step preserves the orchestration state. -/
theorem adminPasswordProcess_orch : preservesOrch adminPasswordProcess := by
  intro data req w
  unfold adminPasswordProcess
  split
  · exact updateAdminPassword_orch data.adminPassword w
  · rfl

/-- The admin password step always succeeds with an empty delta, leaving
the in-memory token untouched. -/
theorem adminPasswordProcess_ok (data : Submission) (req : Req) (w : World) :
    ∃ w1, adminPasswordProcess data req w = (Except.ok [], w1) ∧
      w1.setupToken = w.setupToken ∧
      fileGet w1.files "config/setup-token" = fileGet w.files "config/setup-token" := by
  have horch : orchOf (adminPasswordProcess data req w).2 = orchOf w :=
    adminPasswordProcess_orch data req w
  have htok : (adminPasswordProcess data req w).2.setupToken = w.setupToken := by
    have := congrArg (fun x => x.2.1) horch
    simpa [orchOf] using this
  have hfile : fileGet (adminPasswordProcess data req w).2.files "config/setup-token" =
      fileGet w.files "config/setup-token" := by
    have := congrArg (fun x => x.2.2.2.1) horch
    simpa [orchOf] using this
  refine ⟨(adminPasswordProcess data req w).2, ?_, htok, hfile⟩
  unfold adminPasswordProcess
  split
  · rfl
  · rfl

/-- The default pipeline always succeeds (the only fallible step swallows
its failure), and it leaves the in-memory token and the token file
untouched. -/
theorem default_pipeline (data : Submission) (req : Req) (w : World) :
    ∃ cfg w1, processConfigSteps defaultRegistry data req w = (Except.ok cfg, w1) ∧
      w1.setupToken = w.setupToken ∧
      fileGet w1.files "config/setup-token" = fileGet w.files "config/setup-token" := by
  obtain ⟨w1, hstep, htok, hfile⟩ := adminPasswordProcess_ok data req w
  have haux0 : processConfigStepsAux data req
      [subdomainStep, domainStep, adminPasswordStep] [] none w [] =
      processConfigStepsAux data req [adminPasswordStep] (defaultDelta data req)
        none w ["subdomain", "domain"] := rfl
  have haux1 : processConfigStepsAux data req [adminPasswordStep]
      (defaultDelta data req) none w ["subdomain", "domain"] =
      { result := Except.ok (defaultDelta data req,
          if data.adminPassword != "" then some data.adminPassword else none),
        world := w1, trace := ["subdomain", "domain", "adminPassword"] } := by
    simp only [processConfigStepsAux, adminPasswordStep, hstep]
    simp [objMerge]
  by_cases hd : data.adminPassword = ""
  · refine ⟨defaultDelta data req, w1, ?_, htok, hfile⟩
    unfold processConfigSteps
    rw [defaultRegistry_eq, haux0, haux1]
    simp [hd]
  · refine ⟨objSet (defaultDelta data req) "__adminPassword"
      (JVal.str data.adminPassword), w1, ?_, htok, hfile⟩
    unfold processConfigSteps
    rw [defaultRegistry_eq, haux0, haux1]
    simp [hd]

/-- A successful pipeline makes the configure endpoint answer success with
the restart decision and commit through commitWorld. -/
theorem configureHandler_eq {steps : List Step} {r : Req} {w : World}
    {cfg : Obj} {w1 : World}
    (hpipe : processConfigSteps steps r.body r w = (Except.ok cfg, w1)) :
    configureHandler steps r w =
      (Resp.ok (requiresRestart cfg), commitWorld cfg w1) := by
  unfold configureHandler commitWorld
  rw [hpipe]
  rfl

/-- What the commit leaves behind: flag set, token file gone, in-memory
token untouched. -/
theorem commitWorld_facts (cfg : Obj) (w1 : World) (t : String)
    (ht : w1.setupToken = some t) :
    (commitWorld cfg w1).setupToken = some t ∧
    (commitWorld cfg w1).setupCompleted = true ∧
    fileGet (commitWorld cfg w1).files "config/setup-token" = none := by
  unfold commitWorld updateConfig markSetupCompleted
  cases ho : objGetStr cfg "__adminPassword" with
  | none => simp [ho, ht, fileGet_fileRemove_self]
  | some pw =>
    by_cases hp : (pw != "") = true
    · simp [ho, hp, ht, fileGet_fileRemove_self]
    · simp [ho, hp, ht, fileGet_fileRemove_self]

/-- C3 (amended): after every successful completeSetup the persisted token
file is deleted, but the in-memory gate token is unchanged, so within the
same process a subsequent classification of a write-route request replaying
the old token value returns Authorized, not Denied; the old token only
stops working once the process restarts and generates a fresh token. -/
theorem c3_token_file_removed_but_memory_token_kept (r : Req) (w : World)
    (t : String) (ht : w.setupToken = some t) (hne : t ≠ "") :
    (∃ b, (configureHandler defaultRegistry r w).1 = Resp.ok b) ∧
    fileGet (configureHandler defaultRegistry r w).2.files "config/setup-token" = none ∧
    (configureHandler defaultRegistry r w).2.setupToken = some t ∧
    ∀ r2 : Req, r2.path = "/__setup/reset" → r2.method = "POST" →
      r2.queryToken = t →
      verifySetupToken (configureHandler defaultRegistry r w).2.setupCompleted
        (configureHandler defaultRegistry r w).2.setupToken r2 =
        GateResult.authorized := by
  obtain ⟨cfg, w1, hpipe, htok1, hfile1⟩ := default_pipeline r.body r w
  have heq := configureHandler_eq hpipe
  have hw1t : w1.setupToken = some t := htok1.trans ht
  obtain ⟨hctok, hccomp, hcfile⟩ := commitWorld_facts cfg w1 t hw1t
  rw [heq]
  refine ⟨⟨requiresRestart cfg, rfl⟩, hcfile, hctok, ?_⟩
  intro r2 h1 h2 h3
  show verifySetupToken (commitWorld cfg w1).setupCompleted
    (commitWorld cfg w1).setupToken r2 = GateResult.authorized
  rw [hctok]
  simp [verifySetupToken, h1, h2, h3, hne]

/-- C3 witness: at a concrete fresh deployment and submission, setup
completes and the token file is gone. -/
theorem c3_witness_concrete :
    fileGet (configureHandler defaultRegistry goodReq testWorld).2.files
      "config/setup-token" = none :=
  (c3_token_file_removed_but_memory_token_kept goodReq testWorld "s3cret" rfl
    (by decide)).2.1

/-- C3 counterexample: a concrete successful setup after which the reset
write route presented with the OLD token value is still classified
Authorized, refuting that the old token can never again be authorized. -/
theorem c3_counterexample_old_token_authorized :
    (configureHandler defaultRegistry goodReq testWorld).1 = Resp.ok true ∧
    verifySetupToken
      (configureHandler defaultRegistry goodReq testWorld).2.setupCompleted
      (configureHandler defaultRegistry goodReq testWorld).2.setupToken
      oldTokenResetReq = GateResult.authorized ∧
    GateResult.authorized ≠ GateResult.denied := by
  decide

/-- C1: the claim says a configure POST whose supplied token mismatches the
persisted token is Denied (redirected) with no pipeline step executed and
the completion state unchanged.  The configure endpoint is attached without
the verifySetupToken middleware, so at this concrete mismatched-token
request the gate classification is Denied, yet dispatch still runs every
pipeline step, marks setup completed and answers success. -/
theorem c1_configure_route_skips_token_gate :
    verifySetupToken testWorld.setupCompleted testWorld.setupToken
      mismatchedReq = GateResult.denied ∧
    (handleSetupPost defaultRegistry testWorld mismatchedReq).1 = Resp.ok true ∧
    (handleSetupPost defaultRegistry testWorld mismatchedReq).2.setupCompleted = true ∧
    isSetupCompleted (handleSetupPost defaultRegistry testWorld mismatchedReq).2 = true ∧
    pipelineTrace defaultRegistry mismatchedReq.body mismatchedReq testWorld =
      ["subdomain", "domain", "adminPassword"] := by
  decide

/-- C2: the claim says the captured admin credential is never a key of the
merged ConfigDelta committed to the configuration store.  At this concrete
submission the merged config object passed to updateConfig carries the
plaintext credential under the key __adminPassword, and updateConfig both
merges it into the global configuration object and persists it inside
config/wizard-config.json. -/
theorem c2_credential_is_key_of_committed_delta :
    fileGet (configureHandler defaultRegistry goodReq testWorld).2.files
      "config/wizard-config.json" =
      some (FileData.jsonObj [("experimental_no_subdomain", JVal.bool true),
        ("domain", JVal.str "example.com"),
        ("__adminPassword", JVal.str "secretpw")]) ∧
    objGetStr (configureHandler defaultRegistry goodReq testWorld).2.globalConfig
      "__adminPassword" = some "secretpw" := by
  decide

/-- C5: when some pipeline step throws, the configure endpoint aborts with
the step's failure surfaced as the error response, the world is exactly the
pipeline's world (updateConfig, markSetupCompleted and the token unlink
never run), and — for steps that do not themselves touch the orchestration
state, as none of the shipped steps do — the in-memory flag, both marker
files, the token, the global configuration object and the committed wizard
config are all unchanged, so the submission can be retried. -/
theorem c5_step_failure_aborts_without_commit (steps : List Step) (r : Req)
    (w : World) (e : String) (w1 : World)
    (hpres : ∀ s ∈ steps, preservesOrch s.process)
    (h : processConfigSteps steps r.body r w = (Except.error e, w1)) :
    configureHandler steps r w = (Resp.fail "Failed to complete setup" e, w1) ∧
    orchOf w1 = orchOf w ∧
    w1.setupCompleted = w.setupCompleted ∧
    w1.setupToken = w.setupToken ∧
    fileGet w1.files "config/setup-token" = fileGet w.files "config/setup-token" ∧
    (w.setupCompleted = false → w1.setupCompleted = false) := by
  have horch : orchOf w1 = orchOf w := processConfigSteps_error_orch hpres h
  have hcomp : w1.setupCompleted = w.setupCompleted := congrArg (fun x => x.1) horch
  have htok : w1.setupToken = w.setupToken := congrArg (fun x => x.2.1) horch
  have hfile : fileGet w1.files "config/setup-token" =
      fileGet w.files "config/setup-token" :=
    congrArg (fun x => x.2.2.2.1) horch
  refine ⟨?_, horch, hcomp, htok, hfile, fun hc => hcomp.trans hc⟩
  unfold configureHandler
  rw [h]

/-- C5 witness: a concrete registry containing a throwing step makes the
endpoint answer the failure and leaves the concrete world untouched. -/
theorem c5_witness_boom_step :
    configureHandler [boomStep] mismatchedReq testWorld =
      (Resp.fail "Failed to complete setup" "boom", testWorld) :=
  (c5_step_failure_aborts_without_commit [boomStep] mismatchedReq testWorld
    "boom" testWorld
    (by
      intro s hs
      simp only [List.mem_singleton] at hs
      subst hs
      intro data req w
      rfl)
    (by rfl)).1

/-- C4 counterexample: registering id x twice does not replace the entry in
place.  From an empty registry the count becomes 2, not 1; the pipeline
runs both registrations, and the merged delta shows the EARLIER process
also ran (key a from the first registration), refuting count unchanged and
refuting that only the latest registration runs. -/
theorem c4_counterexample_duplicate_id_appends :
    regXX.length = 2 ∧ ¬ regXX.length = 1 ∧
    regXX.map Step.id = ["x", "x"] ∧
    pipelineTrace regXX mismatchedBody mismatchedReq testWorld = ["x", "x"] ∧
    (processConfigSteps regXX mismatchedBody mismatchedReq testWorld).1 =
      Except.ok [("a", JVal.str "1"), ("b", JVal.str "2")] := by
  refine ⟨by decide, by decide, by decide, by decide, ?_⟩
  rfl

/-- C4 (amended): registering a step whose id already exists appends a new
entry instead of replacing: the registry count grows by one, the entries
with that id grow by one (the prior process is retained alongside the new
one), and a successful pipeline run executes every registry entry, the
earlier registration included. -/
theorem c4_register_existing_id_appends (registry : List Step) (idx : Nat)
    (s : StepInput) (out : List Step)
    (h : registerConfigStep registry idx s = Except.ok out) :
    out.length = registry.length + 1 ∧
    out.countP (fun t => t.id == s.id) =
      registry.countP (fun t => t.id == s.id) + 1 ∧
    ∀ data req w res w1 t1,
      processConfigStepsAux data req out [] none w [] =
        { result := Except.ok res, world := w1, trace := t1 } →
      t1 = out.map Step.id := by
  obtain ⟨p, hp, rfl⟩ := registerConfigStep_ok h
  have hperm := sortSteps_perm (registry ++ [{
    id := s.id, title := s.title, description := s.description.getD "",
    required := s.required.getD true, order := effOrder s.order,
    template := s.template, process := p, regIdx := idx }])
  refine ⟨?_, ?_, ?_⟩
  · rw [hperm.length_eq]
    simp
  · rw [hperm.countP_eq]
    simp [List.countP_append, List.countP_cons]
  · intro data req w res w1 t1 ht
    simpa using aux_trace_ok data req _ [] none w [] res w1 t1 ht

/-- C4 witness: one registration into the empty registry yields count 1. -/
theorem c4_witness_first_registration : regX1.length = 0 + 1 :=
  (c4_register_existing_id_appends [] 0 xInput1 regX1 rfl).1

/-- C6: for every sequence of step registrations the registry is always
materialized in ascending numeric order with ties broken by registration
order (the registry is re-sorted stably after every insertion), and the
pipeline executes the steps exactly in that registry order: the execution
trace of a successful run is the registry ids in registry order. -/
theorem c6_pipeline_runs_in_registration_order (inputs : List StepInput)
    (reg : List Step) (h : registerSeq 0 [] inputs = Except.ok reg) :
    List.Pairwise stepPrec reg ∧
    ∀ data req w res w1 t1,
      processConfigStepsAux data req reg [] none w [] =
        { result := Except.ok res, world := w1, trace := t1 } →
      t1 = reg.map Step.id := by
  constructor
  · exact registerSeq_pairwise inputs 0 [] reg (List.Pairwise.nil) (by simp) h
  · intro data req w res w1 t1 ht
    simpa using aux_trace_ok data req reg [] none w [] res w1 t1 ht

/-- C6 witness: three steps registered out of order (orders 30, 10, 20)
materialize sorted. -/
theorem c6_witness_three_out_of_order : List.Pairwise stepPrec c6reg ∧
    c6reg.map Step.id = ["early", "mid", "late"] :=
  ⟨(c6_pipeline_runs_in_registration_order c6inputs c6reg rfl).1, by decide⟩

/-- C7: requiresRestart is a total function (no failure modes) returning
true exactly when some key of the fixed restart policy list is a key of the
changed configuration; in particular a config with the key domain needs a
restart, and an unrelated key or the empty config does not. -/
theorem c7_requires_restart_iff_intersects :
    (∀ newConfig : Obj, requiresRestart newConfig = true ↔
      ∃ k, k ∈ restartRequiredOptions ∧ objHas newConfig k = true) ∧
    requiresRestart [("domain", JVal.str "example.com")] = true ∧
    requiresRestart [("unrelated_key", JVal.str "v")] = false ∧
    requiresRestart [] = false := by
  refine ⟨?_, by decide, by decide, by decide⟩
  intro newConfig
  simp [requiresRestart, List.any_eq_true]

/-- C7 witness: the restart policy fires on the domain key. -/
theorem c7_witness_domain_key :
    requiresRestart [("domain", JVal.str "example.com")] = true :=
  c7_requires_restart_iff_intersects.2.1

/-- C8: reset always answers success — in particular removing a
non-existent completion marker succeeds rather than failing — a second
consecutive reset also answers success, and after a reset a subsequent
isSetupCompleted reads false (and the in-memory flag is false too). -/
theorem c8_reset_idempotent (w : World) :
    (resetHandler w).1 = Resp.resetOk ∧
    isSetupCompleted (resetHandler w).2 = false ∧
    (resetHandler w).2.setupCompleted = false ∧
    (resetHandler (resetHandler w).2).1 = Resp.resetOk := by
  refine ⟨rfl, ?_, rfl, rfl⟩
  show (fileGet (fileRemove w.files "config/setup-completed")
    "config/setup-completed").isSome = false
  rw [fileGet_fileRemove_self]
  rfl

/-- C8 witness: reset on a concrete world with no marker file answers
success and leaves the store reading not completed. -/
theorem c8_witness_concrete :
    (resetHandler testWorld).1 = Resp.resetOk ∧
    isSetupCompleted (resetHandler testWorld).2 = false :=
  ⟨(c8_reset_idempotent testWorld).1, (c8_reset_idempotent testWorld).2.1⟩

/-- C9: whenever the admin credential update succeeds and verifies, the
PLAINTEXT password together with the timestamp is written to
admin-password-log.txt in the config directory; the write is best-effort:
when it fails the files are untouched and the credential update still
answers success either way. -/
theorem c9_plaintext_password_logged (pw : String) (w : World)
    (h1 : jsTrim pw ≠ "") (h2 : w.ext.adminUser = true)
    (h3 : w.ext.dbFound = true) (h4 : w.ext.dbUpdateOk = true)
    (h5 : w.ext.verifyUser = true) :
    (updateAdminPassword pw w).1 = Except.ok () ∧
    (w.ext.logWriteOk = true →
      fileGet (updateAdminPassword pw w).2.files "config/admin-password-log.txt" =
        some (FileData.text (adminPasswordLogLine pw w.now))) ∧
    (w.ext.logWriteOk = false → (updateAdminPassword pw w).2.files = w.files) := by
  have hcmp : bcryptCompare pw (bcryptHash pw) = true := by
    simp [bcryptCompare]
  by_cases hlog : w.ext.logWriteOk = true
  · refine ⟨?_, ?_, ?_⟩
    · simp [updateAdminPassword, h1, h2, h3, h4, h5, hcmp, hlog]
    · intro _
      simp [updateAdminPassword, h1, h2, h3, h4, h5, hcmp, hlog,
        fileGet_fileWrite_self]
    · intro hf
      rw [hf] at hlog
      cases hlog
  · have hlog2 : w.ext.logWriteOk = false := by
      cases hv : w.ext.logWriteOk
      · rfl
      · exact absurd hv hlog
    refine ⟨?_, ?_, ?_⟩
    · simp [updateAdminPassword, h1, h2, h3, h4, h5, hcmp, hlog2]
    · intro ht
      rw [ht] at hlog2
      cases hlog2
    · intro _
      simp [updateAdminPassword, h1, h2, h3, h4, h5, hcmp, hlog2]

/-- C9 witness: a concrete verified update returns success. -/
theorem c9_witness_concrete :
    (updateAdminPassword "secretpw" testWorld).1 = Except.ok () :=
  (c9_plaintext_password_logged "secretpw" testWorld (by decide) rfl rfl rfl
    rfl).1

/-- C10: a falsy order field — missing (or null), or the explicit integer 0
— is stored as order 999, and therefore a step explicitly registered with
order 0 lands after all three default steps (orders 10, 20, 30) instead of
first. -/
theorem c10_falsy_order_stored_as_999 :
    (∀ o : Option Int, o = none ∨ o = some 0 → effOrder o = 999) ∧
    (∃ out, registerConfigStep defaultRegistry 3 zeroOrderInput = Except.ok out ∧
      out.map Step.id = ["subdomain", "domain", "adminPassword", "zero"] ∧
      ∀ t ∈ out, t.id = "zero" → t.order = 999) := by
  constructor
  · rintro o (rfl | rfl) <;> rfl
  · refine ⟨_, rfl, by decide, by decide⟩

/-- C10 witness: the explicit order 0 is turned into 999. -/
theorem c10_witness_zero_is_999 : effOrder (some 0) = 999 :=
  c10_falsy_order_stored_as_999.1 (some 0) (Or.inr rfl)
